import Mathlib

/-!
# Verification of the Circle condominium damage-dashboard filter core

This file gives a shallow embedding, in Lean 4, of the data-loading and
filter/aggregation logic of `src/app.py` (the Streamlit damage dashboard)
and proves, refutes or corrects the documented behaviours (C1-C10) of
that logic.

Embedding conventions:

* A pandas `DataFrame` is modelled as a `Dataset`: a list of `Row`s together
  with one boolean per optional column recording whether that column is
  present in the frame.  A value that is missing inside a present column
  (pandas `NaN`) is an `Option` that is `none`.
* The module-level filter state (`query`, `towers`, `damage_types`,
  `severity_range`) is gathered into an explicit `Criteria` record and the
  function `apply_filters` is written in explicit state-passing style.
* `pd.Series.str.contains(q, case=False, na=False)` interprets `q` as a
  regular expression (the pandas default `regex=True`) compiled with
  `re.IGNORECASE` and applied with `re.search` semantics.  The pattern
  language is modelled by the type `RE` below for the following subset of
  Python regular expressions: literal characters, the wildcard `.` (any
  character except a newline), the quantifiers `*`, `+` and `?` (each
  optionally followed by the lazy marker `?`, which does not change the
  recognised language), alternation `|`, grouping `( )`, and the characters
  `]` and `}` standing for themselves.  Patterns using constructs outside
  this subset (`[`, `{`, `\`, `^`, `$`, `(?`) are conservatively rejected
  by `parsePattern`; the model is only claimed faithful for patterns inside
  the subset.  A rejected pattern is mapped to the error channel, matching
  the `re.error` Python raises on a malformed pattern such as `"("`.
* Case-insensitivity is modelled by comparing characters through
  `Char.toLower`, which coincides with `re.IGNORECASE` on ASCII text.
* Erroneous executions (a malformed pattern; indexing a non-empty frame
  with an unalignable empty boolean mask, see `textStage`/`towerStage`)
  are modelled with `Except FilterError`.
* Everything is computable and structural, so closed statements evaluate
  with `decide` or `rfl`.
-/

set_option maxHeartbeats 1000000
set_option maxRecDepth 4096

deriving instance DecidableEq for Except

namespace CircleDashboard

/-! ## Regular-expression engine

Brzozowski-derivative matcher for the modelled subset of Python regular
expressions, as compiled by `re.compile(query, re.IGNORECASE)` inside
`pd.Series.str.contains`. -/

/-- Abstract syntax of the modelled regular-expression subset. -/
inductive RE where
  | void : RE
  | eps : RE
  | lit : Char → RE
  | dot : RE
  | cat : RE → RE → RE
  | alt : RE → RE → RE
  | star : RE → RE
deriving DecidableEq

/-- Does the expression accept the empty string? -/
def nullable : RE → Bool
  | .void => false
  | .eps => true
  | .lit _ => false
  | .dot => false
  | .cat a b => nullable a && nullable b
  | .alt a b => nullable a || nullable b
  | .star _ => true

/-- Brzozowski derivative.  Literals compare case-insensitively
(`re.IGNORECASE`); `.` matches any character except a newline, as in
Python when `re.DOTALL` is not given. -/
def deriv : RE → Char → RE
  | .void, _ => .void
  | .eps, _ => .void
  | .lit c, x => if c.toLower == x.toLower then .eps else .void
  | .dot, x => if x == '\n' then .void else .eps
  | .cat a b, x =>
      if nullable a then .alt (.cat (deriv a x) b) (deriv b x)
      else .cat (deriv a x) b
  | .alt a b, x => .alt (deriv a x) (deriv b x)
  | .star a, x => .cat (deriv a x) (.star a)

/-- Does some prefix of `s` match `r`?  (`re.match` semantics.) -/
def matchesPre (r : RE) (s : List Char) : Bool :=
  nullable r ||
    match s with
    | [] => false
    | c :: cs => matchesPre (deriv r c) cs

/-- Does `r` match somewhere inside `s`?  (`re.search` semantics: the
pattern may match starting at any position.) -/
def reSearch (r : RE) (s : List Char) : Bool :=
  matchesPre r s ||
    match s with
    | [] => false
    | _ :: cs => reSearch r cs

/-! ### Pattern parser

Fuel-indexed recursive-descent parser for the modelled subset.  Grammar:
an alternation of concatenations; a concatenation is a sequence of atoms,
each optionally carrying one quantifier (`*`, `+` or `?`, optionally
followed by the lazy marker `?`); an atom is a parenthesised alternation,
the wildcard `.`, or a literal character.  A quantifier with nothing to
repeat, a doubled quantifier, an unbalanced parenthesis and the
unsupported metacharacters are parse errors (`none`), mirroring Python's
`re.error` on the subset. -/

/-- Characters that may not stand for themselves as a literal atom. -/
def nonLiteral (c : Char) : Bool :=
  c == '(' || c == ')' || c == '|' || c == '*' || c == '+' || c == '?' ||
  c == '[' || c == '{' || c == '\\' || c == '^' || c == '$' || c == '.'

/-- After a quantifier, consume an optional lazy marker `?`. -/
def eatLazy (s : List Char) : List Char :=
  match s with
  | '?' :: rest => rest
  | _ => s

mutual

/-- Parse an alternation (`|`-separated concatenations). -/
def parseAlt (fuel : Nat) (s : List Char) : Option (RE × List Char) :=
  match fuel with
  | 0 => none
  | fuel + 1 =>
    match parseConcat fuel RE.eps s with
    | none => none
    | some (r, '|' :: rest) =>
      match parseAlt fuel rest with
      | some (r2, rest2) => some (.alt r r2, rest2)
      | none => none
    | some (r, rest) => some (r, rest)

/-- Parse a concatenation of quantified atoms, accumulating into `acc`;
stops in front of `|`, `)` or the end of the pattern. -/
def parseConcat (fuel : Nat) (acc : RE) (s : List Char) : Option (RE × List Char) :=
  match fuel with
  | 0 => none
  | fuel + 1 =>
    match s with
    | [] => some (acc, [])
    | ')' :: _ => some (acc, s)
    | '|' :: _ => some (acc, s)
    | _ =>
      match parseAtom fuel s with
      | none => none
      | some (r, '*' :: rest) => parseConcat fuel (.cat acc (.star r)) (eatLazy rest)
      | some (r, '+' :: rest) => parseConcat fuel (.cat acc (.cat r (.star r))) (eatLazy rest)
      | some (r, '?' :: rest) => parseConcat fuel (.cat acc (.alt r .eps)) (eatLazy rest)
      | some (r, rest) => parseConcat fuel (.cat acc r) rest

/-- Parse one atom: a group, the wildcard, or a literal character. -/
def parseAtom (fuel : Nat) (s : List Char) : Option (RE × List Char) :=
  match fuel with
  | 0 => none
  | fuel + 1 =>
    match s with
    | [] => none
    | '(' :: rest =>
      match parseAlt fuel rest with
      | some (r, ')' :: rest2) => some (r, rest2)
      | _ => none
    | '.' :: rest => some (.dot, rest)
    | c :: rest => if nonLiteral c then none else some (.lit c, rest)

end

/-- Compile a query string to a pattern, mirroring
`re.compile(query, re.IGNORECASE)`: `some` on success, `none` on a
malformed (or unsupported, see the module docstring) pattern. -/
def parsePattern (q : String) : Option RE :=
  match parseAlt (4 * q.length + 8) q.data with
  | some (r, []) => some r
  | _ => none

/-- `re.search` of a compiled pattern inside a string. -/
def searchIn (p : RE) (s : String) : Bool :=
  reSearch p s.data

/-! ### The spec's text predicate

The specification describes the text filter as case-insensitive *substring*
containment.  The following definition follows the spec's words (not the
source) and exists only to be compared with the source's regex search. -/

/-- Is `pat` a prefix of `s`? -/
def isPrefixCh (pat s : List Char) : Bool :=
  match pat, s with
  | [], _ => true
  | _ :: _, [] => false
  | p :: ps, c :: cs => p == c && isPrefixCh ps cs

/-- Is `pat` a contiguous substring of `s`? -/
def isSubstrCh (pat s : List Char) : Bool :=
  isPrefixCh pat s ||
    match s with
    | [] => false
    | _ :: cs => isSubstrCh pat cs

/-- The spec's text predicate: `s` contains `pat` as a case-insensitive
substring.  Written from the spec's words, for comparison with the
source's `searchIn`. -/
def specContainsCI (s pat : String) : Bool :=
  isSubstrCh (pat.data.map Char.toLower) (s.data.map Char.toLower)

/-! ## Data model

One pandas row of the damage table.  `Option.none` models a missing value
(pandas `NaN`) inside a present column.  `damage_types` is the derived
"Damage Type List" column, which the program always constructs before any
filtering (src/app.py lines 98-103). -/

structure Row where
  room_no : Option String := none
  tower : Option String := none
  damages_found : Option String := none
  severity_score : Option ℚ := none
  image_url : Option String := none
  damage_types : List String := []
deriving DecidableEq

/-- A pandas `DataFrame` of damage reports: an ordered list of rows plus
one flag per optional column recording whether the column is present in
the frame at all (a column absent from the frame is different from a
present column whose values are `NaN`). -/
structure Dataset where
  hasRoomNo : Bool := false
  hasTower : Bool := false
  hasDamagesFound : Bool := false
  hasSeverity : Bool := false
  hasImageURL : Bool := false
  rows : List Row := []
deriving DecidableEq

/-- The module-level filter state read by `apply_filters` (the globals
`query`, `towers`, `damage_types`, `severity_range` of src/app.py),
gathered into an explicit record.  `severity_range = none` models the
absence of a supplied range. -/
structure Criteria where
  query : String := ""
  towers : List String := []
  damage_types : List String := []
  severity_range : Option (ℚ × ℚ) := none

/-- The two ways an evaluation of `apply_filters` can raise:
`badPattern` models the `re.error` raised while compiling a malformed
query pattern; `unalignableMask` models the pandas `IndexingError`
("Unalignable boolean Series provided as indexer") raised when a
non-empty frame is indexed with the empty boolean mask that results when
every column feeding the mask is absent. -/
inductive FilterError where
  | badPattern : FilterError
  | unalignableMask : FilterError
deriving DecidableEq

/-! ## Derived damage-type column (src/app.py lines 98-103) -/

/-- Python `"".join`-free model of `x.split(",")`: split a character list
on a separator.  Mirrors `str.split` with an explicit separator, so the
empty string yields one empty fragment. -/
def splitOnChar (sep : Char) : List Char → List (List Char)
  | [] => [[]]
  | c :: rest =>
    match splitOnChar sep rest with
    | [] => [[c]]
    | h :: t => if c == sep then [] :: h :: t else (c :: h) :: t

/-- Python `str.strip()` on a character list: drop leading and trailing
whitespace. -/
def stripCh (cs : List Char) : List Char :=
  ((cs.dropWhile Char.isWhitespace).reverse.dropWhile Char.isWhitespace).reverse

/-- The damage-type parser applied to one value of the "Damages Found"
column (src/app.py lines 99-101):
`[d.strip() for d in x.split(",") if d.strip()]` after `fillna("")`.
Splits on commas, strips each fragment, keeps the non-empty ones. -/
def parseDamageList (damages_found : Option String) : List String :=
  (((splitOnChar ',' (damages_found.getD "").data).map
      (fun f => String.mk (stripCh f))).filter (fun d => d != ""))

/-- The load-time derivation of the "Damage Type List" column
(src/app.py lines 98-103): when the "Damages Found" column is present,
parse each row's value; otherwise give every row the empty list. -/
def computeDamageLists (D : Dataset) : Dataset :=
  { D with rows := D.rows.map (fun r =>
      { r with damage_types :=
          if D.hasDamagesFound then parseDamageList r.damages_found else [] }) }

/-! ## The four filter stages of `apply_filters` (src/app.py lines 149-169)

Each stage mirrors one `if` block.  A stage returns the frame unchanged
when its criterion is inactive, and otherwise keeps the rows whose mask
entry is true.  The text and tower stages carry the error channel for the
unalignable-mask case described at `FilterError`. -/

/-- One row's entry of the text mask
`get("Room No").str.contains(q, case=False, na=False) |
 get("Damages Found").str.contains(q, case=False, na=False)`:
a column absent from the frame contributes no matches (its empty mask is
aligned and filled with `False`), and a `NaN` value never matches
(`na=False`). -/
def rowTextMatch (p : RE) (hasR hasD : Bool) (r : Row) : Bool :=
  (hasR && (r.room_no.map (searchIn p)).getD false) ||
  (hasD && (r.damages_found.map (searchIn p)).getD false)

/-- The text filter (src/app.py lines 151-157), active iff `query` is
non-empty.  Compiling the pattern can raise; and if both text columns are
absent the combined mask is the empty series, which raises on a non-empty
frame. -/
def textStage (query : String) (D : Dataset) : Except FilterError Dataset :=
  if query = "" then .ok D
  else
    match parsePattern query with
    | none => .error .badPattern
    | some p =>
      if !D.hasRoomNo && !D.hasDamagesFound && !D.rows.isEmpty then
        .error .unalignableMask
      else
        .ok { D with rows := D.rows.filter (rowTextMatch p D.hasRoomNo D.hasDamagesFound) }

/-- One row's entry of the tower mask `get("Tower").isin(towers)`:
a `NaN` tower is in no selection. -/
def rowTowerMatch (towers : List String) (r : Row) : Bool :=
  (r.tower.map (fun t => towers.contains t)).getD false

/-- The tower filter (src/app.py lines 158-159), active iff the `towers`
selection is non-empty (`if towers:`).  With the Tower column absent the
mask is the empty series, which raises on a non-empty frame. -/
def towerStage (towers : List String) (D : Dataset) : Except FilterError Dataset :=
  if towers = [] then .ok D
  else if !D.hasTower && !D.rows.isEmpty then .error .unalignableMask
  else .ok { D with rows := D.rows.filter (fun r => D.hasTower && rowTowerMatch towers r) }

/-- One row's entry of the damage-type mask
`lst -> any(d in lst for d in damage_types)`: exact, case-sensitive
string membership. -/
def rowDamageMatch (dts : List String) (r : Row) : Bool :=
  dts.any (fun d => r.damage_types.contains d)

/-- The damage-type filter (src/app.py lines 160-163), active iff the
`damage_types` selection is non-empty.  The "Damage Type List" column is
always present (constructed at load time), so this stage is total. -/
def damageStage (dts : List String) (D : Dataset) : Dataset :=
  if dts = [] then D
  else { D with rows := D.rows.filter (rowDamageMatch dts) }

/-- One row's entry of the severity mask
`(s >= lo) & (s <= hi)`: a `NaN` score fails both comparisons. -/
def rowSeverityMatch (lo hi : ℚ) (r : Row) : Bool :=
  match r.severity_score with
  | some s => decide (lo ≤ s) && decide (s ≤ hi)
  | none => false

/-- The severity filter (src/app.py lines 164-168), active iff the
"Severity Score" column is present in the frame and a range is supplied. -/
def severityStage (range : Option (ℚ × ℚ)) (D : Dataset) : Dataset :=
  match range with
  | none => D
  | some (lo, hi) =>
    if D.hasSeverity then { D with rows := D.rows.filter (rowSeverityMatch lo hi) }
    else D

/-- `apply_filters` (src/app.py lines 149-169): the conjunction of the
four stages, applied in source order to a copy of the input frame. -/
def apply_filters (C : Criteria) (D : Dataset) : Except FilterError Dataset :=
  match textStage C.query D with
  | .error e => .error e
  | .ok d1 =>
    match towerStage C.towers d1 with
    | .error e => .error e
    | .ok d2 => .ok (severityStage C.severity_range (damageStage C.damage_types d2))

/-! ## Data loading (src/app.py lines 86-95) -/

/-- What the file system holds at one candidate path: no file at all, a
file that parses to a table, or a file that exists but cannot be parsed. -/
inductive FileContent where
  | absent : FileContent
  | table : Dataset → FileContent
  | malformed : FileContent
deriving DecidableEq

/-- The `for path in (...)` loop of `load_data`: `FileNotFoundError` is
swallowed and the next candidate is tried; the first file that exists is
parsed, and a parse failure propagates; if no candidate exists, an empty
frame is returned. -/
def tryPaths (fs : String → FileContent) : List String → Except Unit Dataset
  | [] => .ok {}
  | p :: rest =>
    match fs p with
    | .absent => tryPaths fs rest
    | .table d => .ok d
    | .malformed => .error ()

/-- `load_data` (src/app.py lines 86-95): try the parquet file first,
then the csv file. -/
def load_data (fs : String → FileContent) : Except Unit Dataset :=
  tryPaths fs ["data/damage_data.parquet", "data/damage_data.csv"]

/-! ## Damage-frequency aggregation

The spec's contract `aggregate_damage_frequency(filtered, top_n)` exists
in src/app.py only as the inline instance
`filtered_df.explode("Damage Type List")["Damage Type List"].value_counts().head(10)`
(lines 185-187), whose tie order among equal counts is whatever the
library's unstable descending sort produces.  The parameterised function
below is therefore modelled from the spec. -/

/-- Modelled from the spec: explode each row's `damage_types` into the
list of individual labels (the label components of the (row, label)
pairs; a row with an empty list contributes nothing, duplicates within a
row are kept, as with `DataFrame.explode` followed by a `NaN`-dropping
`value_counts`). -/
def explodeLabels (rows : List Row) : List String :=
  (rows.map (fun r => r.damage_types)).flatten

/-- Distinct elements of a list in order of first appearance
(fuel-indexed so that it is structural and kernel-computable). -/
def firstSeenAux : Nat → List String → List String
  | 0, _ => []
  | _, [] => []
  | fuel + 1, l :: rest => l :: firstSeenAux fuel (rest.filter (fun x => x != l))

/-- Distinct elements of a list in order of first appearance. -/
def firstSeen (ls : List String) : List String :=
  firstSeenAux ls.length ls

/-- Modelled from the spec: count the occurrences of each distinct label,
keys listed in first-seen order (the hash-table order of
`value_counts`). -/
def countLabels (ls : List String) : List (String × ℕ) :=
  (firstSeen ls).map (fun k => (k, ls.count k))

/-- Descending-by-count comparison on (label, count) entries. -/
def byCountDesc : String × ℕ → String × ℕ → Prop :=
  fun p q => q.2 ≤ p.2

instance : DecidableRel byCountDesc :=
  fun p q => Nat.decLe q.2 p.2

instance : IsTotal (String × ℕ) byCountDesc :=
  ⟨fun p q => Nat.le_total q.2 p.2⟩

instance : IsTrans (String × ℕ) byCountDesc :=
  ⟨fun _ _ _ h1 h2 => Nat.le_trans h2 h1⟩

/-- Modelled from the spec: stable descending sort by count, so that
labels with equal counts stay in first-seen order (the spec's assumed
tie-break). -/
def sortDesc (xs : List (String × ℕ)) : List (String × ℕ) :=
  List.insertionSort byCountDesc xs

/-- Modelled from the spec: `aggregate_damage_frequency(filtered, top_n)`
— explode, count each distinct label, sort descending by count with
first-seen tie-break, return the top `top_n` entries (default 10). -/
def aggregate_damage_frequency (filtered : List Row) (top_n : Nat := 10) :
    List (String × ℕ) :=
  (sortDesc (countLabels (explodeLabels filtered))).take top_n

/-! ## Helper lemmas about the filter stages -/

theorem textStage_shape {q : String} {D E : Dataset} (h : textStage q D = .ok E) :
    ∃ φ : Row → Bool, E = { D with rows := D.rows.filter φ } := by
  unfold textStage at h
  split at h
  · cases h
    exact ⟨fun _ => true, by simp⟩
  · split at h
    · cases h
    · split at h
      · cases h
      · cases h
        exact ⟨_, rfl⟩

theorem towerStage_shape {ts : List String} {D E : Dataset} (h : towerStage ts D = .ok E) :
    ∃ φ : Row → Bool, E = { D with rows := D.rows.filter φ } := by
  unfold towerStage at h
  split at h
  · cases h
    exact ⟨fun _ => true, by simp⟩
  · split at h
    · cases h
    · cases h
      exact ⟨_, rfl⟩

theorem damageStage_shape (dts : List String) (D : Dataset) :
    ∃ φ : Row → Bool, damageStage dts D = { D with rows := D.rows.filter φ } := by
  unfold damageStage
  split
  · exact ⟨fun _ => true, by simp⟩
  · exact ⟨rowDamageMatch dts, rfl⟩

theorem severityStage_shape (sv : Option (ℚ × ℚ)) (D : Dataset) :
    ∃ φ : Row → Bool, severityStage sv D = { D with rows := D.rows.filter φ } := by
  unfold severityStage
  split
  · exact ⟨fun _ => true, by simp⟩
  · split
    · exact ⟨_, rfl⟩
    · exact ⟨fun _ => true, by simp⟩

theorem apply_filters_decomp {C : Criteria} {D E : Dataset}
    (h : apply_filters C D = .ok E) :
    ∃ d1 d2, textStage C.query D = .ok d1 ∧ towerStage C.towers d1 = .ok d2 ∧
      E = severityStage C.severity_range (damageStage C.damage_types d2) := by
  unfold apply_filters at h
  split at h
  · cases h
  · rename_i d1 h1
    split at h
    · cases h
    · rename_i d2 h2
      cases h
      exact ⟨d1, d2, h1, h2, rfl⟩

theorem apply_filters_shape {C : Criteria} {D E : Dataset}
    (h : apply_filters C D = .ok E) :
    E.rows.Sublist D.rows ∧ E.hasRoomNo = D.hasRoomNo ∧ E.hasTower = D.hasTower ∧
      E.hasDamagesFound = D.hasDamagesFound ∧ E.hasSeverity = D.hasSeverity ∧
      E.hasImageURL = D.hasImageURL := by
  obtain ⟨d1, d2, h1, h2, hE⟩ := apply_filters_decomp h
  obtain ⟨φ1, rfl⟩ := textStage_shape h1
  obtain ⟨φ2, rfl⟩ := towerStage_shape h2
  obtain ⟨φ3, h3⟩ := damageStage_shape C.damage_types _
  rw [h3] at hE
  obtain ⟨φ4, h4⟩ := severityStage_shape C.severity_range _
  rw [h4] at hE
  subst hE
  refine ⟨?_, rfl, rfl, rfl, rfl, rfl⟩
  exact (((List.filter_sublist _).trans (List.filter_sublist _)).trans
    (List.filter_sublist _)).trans (List.filter_sublist _)

theorem damageStage_mem {dts : List String} {D : Dataset} {r : Row}
    (h : r ∈ (damageStage dts D).rows) : r ∈ D.rows := by
  obtain ⟨φ, hφ⟩ := damageStage_shape dts D
  rw [hφ] at h
  exact List.mem_of_mem_filter h

theorem severityStage_mem {sv : Option (ℚ × ℚ)} {D : Dataset} {r : Row}
    (h : r ∈ (severityStage sv D).rows) : r ∈ D.rows := by
  obtain ⟨φ, hφ⟩ := severityStage_shape sv D
  rw [hφ] at h
  exact List.mem_of_mem_filter h

theorem textStage_self {q : String} {D E F : Dataset} (h : textStage q D = .ok E)
    (hR : F.hasRoomNo = D.hasRoomNo) (hD : F.hasDamagesFound = D.hasDamagesFound)
    (hsub : ∀ r ∈ F.rows, r ∈ E.rows) : textStage q F = .ok F := by
  unfold textStage at h ⊢
  split at h
  · rename_i hq
    rw [if_pos hq]
  · rename_i hq
    rw [if_neg hq]
    split at h
    · cases h
    · rename_i p hp
      split at h
      · cases h
      · rename_i hg
        cases h
        split
        · rename_i hgF
          exfalso
          simp only [Bool.and_eq_true, Bool.not_eq_true'] at hg hgF
          obtain ⟨⟨hFr, hFd⟩, hFe⟩ := hgF
          rw [hR] at hFr
          rw [hD] at hFd
          have hDe : D.rows.isEmpty = true := by
            by_contra hc
            exact hg ⟨⟨hFr, hFd⟩, by simpa using hc⟩
          have hDnil : D.rows = [] := List.isEmpty_iff.mp hDe
          have hFnil : F.rows = [] := by
            apply List.eq_nil_iff_forall_not_mem.mpr
            intro r hr
            have := hsub r hr
            rw [hDnil] at this
            simp at this
          rw [hFnil] at hFe
          simp at hFe
        · have hself : F.rows.filter
              (rowTextMatch p F.hasRoomNo F.hasDamagesFound) = F.rows := by
            rw [hR, hD]
            apply List.filter_eq_self.mpr
            intro r hr
            exact (List.mem_filter.mp (hsub r hr)).2
          rw [hself]

theorem towerStage_self {ts : List String} {D E F : Dataset} (h : towerStage ts D = .ok E)
    (hT : F.hasTower = D.hasTower)
    (hsub : ∀ r ∈ F.rows, r ∈ E.rows) : towerStage ts F = .ok F := by
  unfold towerStage at h ⊢
  split at h
  · rename_i ht
    rw [if_pos ht]
  · rename_i ht
    rw [if_neg ht]
    split at h
    · cases h
    · rename_i hg
      cases h
      split
      · rename_i hgF
        exfalso
        simp only [Bool.and_eq_true, Bool.not_eq_true'] at hg hgF
        obtain ⟨hFt, hFe⟩ := hgF
        rw [hT] at hFt
        have hDe : D.rows.isEmpty = true := by
          by_contra hc
          exact hg ⟨hFt, by simpa using hc⟩
        have hDnil : D.rows = [] := List.isEmpty_iff.mp hDe
        have hFnil : F.rows = [] := by
          apply List.eq_nil_iff_forall_not_mem.mpr
          intro r hr
          have := hsub r hr
          rw [hDnil] at this
          simp at this
        rw [hFnil] at hFe
        simp at hFe
      · have hself : F.rows.filter (fun r => F.hasTower && rowTowerMatch ts r) = F.rows := by
          rw [hT]
          apply List.filter_eq_self.mpr
          intro r hr
          exact (List.mem_filter.mp (hsub r hr)).2
        rw [hself]

theorem damageStage_self {dts : List String} {D F : Dataset}
    (hsub : ∀ r ∈ F.rows, r ∈ (damageStage dts D).rows) : damageStage dts F = F := by
  unfold damageStage
  split
  · rfl
  · rename_i ht
    have hself : F.rows.filter (rowDamageMatch dts) = F.rows := by
      apply List.filter_eq_self.mpr
      intro r hr
      have := hsub r hr
      unfold damageStage at this
      rw [if_neg ht] at this
      exact (List.mem_filter.mp this).2
    rw [hself]

theorem severityStage_self {sv : Option (ℚ × ℚ)} {D F : Dataset}
    (hS : F.hasSeverity = D.hasSeverity)
    (hsub : ∀ r ∈ F.rows, r ∈ (severityStage sv D).rows) : severityStage sv F = F := by
  unfold severityStage
  split
  · rfl
  · rename_i lo hi
    split
    · rename_i hFs
      have hDs : D.hasSeverity = true := by rw [← hS]; exact hFs
      have hself : F.rows.filter (rowSeverityMatch lo hi) = F.rows := by
        apply List.filter_eq_self.mpr
        intro r hr
        have := hsub r hr
        simp [severityStage, hDs, List.mem_filter] at this
        exact this.2
      rw [hself]
    · rfl

theorem apply_filters_idem {C : Criteria} {D E : Dataset}
    (h : apply_filters C D = .ok E) : apply_filters C E = .ok E := by
  obtain ⟨d1, d2, h1, h2, hE⟩ := apply_filters_decomp h
  obtain ⟨hsub, hfR, hfT, hfD, hfS, hfI⟩ := apply_filters_shape h
  have hd1 := textStage_shape h1
  have hd2 := towerStage_shape h2
  obtain ⟨φ1, hd1e⟩ := hd1
  obtain ⟨φ2, hd2e⟩ := hd2
  -- membership of E.rows in each intermediate stage result
  have hmem2 : ∀ r ∈ E.rows, r ∈ d2.rows := by
    intro r hr
    rw [hE] at hr
    exact damageStage_mem (severityStage_mem hr)
  have hmem1 : ∀ r ∈ E.rows, r ∈ d1.rows := by
    intro r hr
    have := hmem2 r hr
    rw [hd2e] at this
    exact List.mem_of_mem_filter this
  have hmemD : ∀ r ∈ E.rows, r ∈ (damageStage C.damage_types d2).rows := by
    intro r hr
    rw [hE] at hr
    exact severityStage_mem hr
  -- flags of the intermediates agree with D, hence with E
  have hfl1T : d1.hasTower = D.hasTower := by rw [hd1e]
  have ht : textStage C.query E = .ok E := textStage_self h1 hfR hfD hmem1
  have htw : towerStage C.towers E = .ok E :=
    towerStage_self h2 (hfT.trans hfl1T.symm) hmem2
  have hdm : damageStage C.damage_types E = E := damageStage_self hmemD
  have hsv : severityStage C.severity_range E = E := by
    apply severityStage_self (D := damageStage C.damage_types d2)
    · obtain ⟨φ3, h3⟩ := damageStage_shape C.damage_types d2
      obtain ⟨φ4, h4⟩ := severityStage_shape C.severity_range (damageStage C.damage_types d2)
      rw [hE, h4, h3]
    · intro r hr
      rw [hE] at hr
      exact hr
  simp [apply_filters, ht, htw, hdm, hsv]

/-! ## Helper lemmas about the aggregation -/

theorem firstSeenAux_subset {fuel : Nat} {ls : List String} {x : String}
    (h : x ∈ firstSeenAux fuel ls) : x ∈ ls := by
  induction fuel generalizing ls with
  | zero => simp [firstSeenAux] at h
  | succ fuel ih =>
    cases ls with
    | nil => simp [firstSeenAux] at h
    | cons l rest =>
      simp only [firstSeenAux, List.mem_cons] at h
      cases h with
      | inl h => exact h ▸ List.mem_cons_self _ _
      | inr h => exact List.mem_cons_of_mem _ (List.mem_of_mem_filter (ih h))

theorem mem_firstSeenAux {fuel : Nat} {ls : List String} {x : String}
    (hlen : ls.length ≤ fuel) (h : x ∈ ls) : x ∈ firstSeenAux fuel ls := by
  induction fuel generalizing ls with
  | zero =>
    rw [Nat.le_zero, List.length_eq_zero] at hlen
    subst hlen
    simp at h
  | succ fuel ih =>
    cases ls with
    | nil => simp at h
    | cons l rest =>
      simp only [firstSeenAux, List.mem_cons]
      by_cases hx : x = l
      · exact Or.inl hx
      · right
        apply ih
        · calc (rest.filter (fun y => y != l)).length ≤ rest.length :=
            List.length_filter_le _ _
          _ ≤ fuel := Nat.le_of_succ_le_succ (by simpa using hlen)
        · rw [List.mem_filter]
          refine ⟨?_, by simpa using hx⟩
          cases List.mem_cons.mp h with
          | inl hc => exact absurd hc hx
          | inr hc => exact hc

theorem count_add_length_filter_ne (l : String) (rest : List String) :
    rest.count l + (rest.filter (fun x => x != l)).length = rest.length := by
  induction rest with
  | nil => rfl
  | cons x rest ih =>
    by_cases hx : x = l
    · subst hx
      simp only [List.count_cons, List.filter_cons, beq_self_eq_true, if_true,
        bne_self_eq_false, Bool.false_eq_true, if_false, List.length_cons]
      omega
    · have hbeq : (x == l) = false := beq_eq_false_iff_ne.mpr hx
      have hbne : (x != l) = true := by simp [bne, hbeq]
      simp only [List.count_cons, List.filter_cons, hbeq, hbne, if_true,
        Bool.false_eq_true, if_false, List.length_cons]
      omega

theorem firstSeenAux_count_sum {fuel : Nat} {ls : List String}
    (hlen : ls.length ≤ fuel) :
    ((firstSeenAux fuel ls).map (fun k => ls.count k)).sum = ls.length := by
  induction fuel generalizing ls with
  | zero =>
    rw [Nat.le_zero, List.length_eq_zero] at hlen
    subst hlen
    rfl
  | succ fuel ih =>
    cases ls with
    | nil => rfl
    | cons l rest =>
      have hrest : rest.length ≤ fuel := Nat.le_of_succ_le_succ (by simpa using hlen)
      have hrest' : (rest.filter (fun y => y != l)).length ≤ fuel :=
        Nat.le_trans (List.length_filter_le _ _) hrest
      simp only [firstSeenAux, List.map_cons, List.sum_cons]
      have hcongr : (firstSeenAux fuel (rest.filter (fun y => y != l))).map
            (fun k => (l :: rest).count k) =
          (firstSeenAux fuel (rest.filter (fun y => y != l))).map
            (fun k => (rest.filter (fun y => y != l)).count k) := by
        apply List.map_congr_left
        intro k hk
        have hk1 : k ∈ rest.filter (fun y => y != l) := firstSeenAux_subset hk
        have hkne : k ≠ l := by
          have := (List.mem_filter.mp hk1).2
          simpa using this
        rw [List.count_cons_of_ne hkne, List.count_filter (by simpa using hkne)]
      rw [hcongr, ih hrest', List.count_cons_self]
      have := count_add_length_filter_ne l rest
      simp only [List.length_cons]
      omega

theorem countLabels_count {ls : List String} {l : String} {n : ℕ}
    (h : (l, n) ∈ countLabels ls) : n = ls.count l := by
  obtain ⟨k, hk1, hk2⟩ := List.mem_map.mp h
  cases hk2
  rfl

theorem countLabels_complete {ls : List String} {l : String} (h : l ∈ ls) :
    (l, ls.count l) ∈ countLabels ls :=
  List.mem_map.mpr ⟨l, mem_firstSeenAux (Nat.le_refl _) h, rfl⟩

theorem countLabels_sum (ls : List String) :
    ((countLabels ls).map (fun p => p.2)).sum = ls.length := by
  unfold countLabels
  rw [List.map_map]
  exact firstSeenAux_count_sum (Nat.le_refl _)

theorem sortDesc_perm (xs : List (String × ℕ)) : List.Perm (sortDesc xs) xs :=
  List.perm_insertionSort byCountDesc xs

theorem sortDesc_sorted (xs : List (String × ℕ)) : List.Sorted byCountDesc (sortDesc xs) :=
  List.sorted_insertionSort byCountDesc xs

theorem sortDesc_sum (xs : List (String × ℕ)) :
    ((sortDesc xs).map (fun p => p.2)).sum = (xs.map (fun p => p.2)).sum :=
  ((sortDesc_perm xs).map (fun p => p.2)).sum_eq

theorem sum_map_take_le (xs : List (String × ℕ)) (n : Nat) :
    ((xs.take n).map (fun p => p.2)).sum ≤ (xs.map (fun p => p.2)).sum := by
  conv_rhs => rw [← List.take_append_drop n xs]
  rw [List.map_append, List.sum_append]
  exact Nat.le_add_right _ _

theorem orderedInsert_filter_count (p : String × ℕ) (xs : List (String × ℕ)) (n : ℕ) :
    (List.orderedInsert byCountDesc p xs).filter (fun q => q.2 == n) =
      if p.2 == n then p :: xs.filter (fun q => q.2 == n)
      else xs.filter (fun q => q.2 == n) := by
  induction xs with
  | nil =>
    simp only [List.orderedInsert, List.filter_cons, List.filter_nil]
  | cons b l ih =>
    by_cases hr : byCountDesc p b
    · rw [List.orderedInsert, if_pos hr]
      simp only [List.filter_cons]
    · rw [List.orderedInsert, if_neg hr]
      have hpb : p.2 < b.2 := Nat.lt_of_not_le hr
      by_cases hp : (p.2 == n) = true
      · have hbn : (b.2 == n) = false := by
          have hpn : p.2 = n := beq_iff_eq.mp hp
          apply Bool.not_eq_true _ |>.mp
          intro hb
          have : b.2 = n := beq_iff_eq.mp hb
          omega
        simp only [List.filter_cons, hbn, Bool.false_eq_true, if_false, ih, hp, if_true]
      · simp only [List.filter_cons, ih, hp, Bool.false_eq_true, if_false]

theorem sortDesc_filter_count (xs : List (String × ℕ)) (n : ℕ) :
    (sortDesc xs).filter (fun q => q.2 == n) = xs.filter (fun q => q.2 == n) := by
  induction xs with
  | nil => rfl
  | cons x l ih =>
    have ihs : (List.insertionSort byCountDesc l).filter (fun q => q.2 == n) =
        l.filter (fun q => q.2 == n) := ih
    show (List.orderedInsert byCountDesc x (List.insertionSort byCountDesc l)).filter
        (fun q => q.2 == n) = List.filter (fun q => q.2 == n) (x :: l)
    rw [orderedInsert_filter_count]
    by_cases hx : (x.2 == n) = true
    · simp only [hx, if_true, List.filter_cons]
      rw [ihs]
    · simp only [hx, Bool.false_eq_true, if_false, List.filter_cons]
      rw [ihs]

/-! ## Predicate characterizations -/

theorem rowSeverityMatch_iff {lo hi : ℚ} {r : Row} :
    rowSeverityMatch lo hi r = true ↔
      ∃ s : ℚ, r.severity_score = some s ∧ lo ≤ s ∧ s ≤ hi := by
  unfold rowSeverityMatch
  cases h : r.severity_score with
  | none => simp
  | some s => simp [Bool.and_eq_true, decide_eq_true_eq]

theorem rowDamageMatch_iff {dts : List String} {r : Row} :
    rowDamageMatch dts r = true ↔ ∃ d ∈ dts, d ∈ r.damage_types := by
  unfold rowDamageMatch
  simp [List.any_eq_true]

theorem rowTextMatch_iff {p : RE} {hR hD : Bool} {r : Row} :
    rowTextMatch p hR hD r = true ↔
      ((hR = true ∧ ∃ s, r.room_no = some s ∧ searchIn p s = true) ∨
       (hD = true ∧ ∃ s, r.damages_found = some s ∧ searchIn p s = true)) := by
  unfold rowTextMatch
  cases hr : r.room_no <;> cases hd : r.damages_found <;>
    simp [Bool.or_eq_true, Bool.and_eq_true]

/-! ## The documented behaviours (C1-C10) -/

/-- C2 counterexample: with one row and an explicitly empty `towers`
selection (all other criteria inactive), `apply_filters` returns the row
rather than the zero rows the claim asserts — `if towers:` skips the
tower predicate entirely when the selection is empty. -/
theorem claim_C2_counterexample :
    (apply_filters { towers := [] } { rows := [{}] }).map (fun d => d.rows.length) =
      .ok 1 := by decide

/-- C2 (amended): an empty `towers` selection imposes no restriction —
exactly like an empty `damage_types` selection.  `towerStage []` and
`damageStage []` are both the identity, and with both multi-selects
empty `apply_filters` reduces to the text and severity stages alone;
there is no asymmetry between the two empty multi-selects. -/
theorem claim_C2_empty_selections (C : Criteria) (D : Dataset) :
    towerStage [] D = .ok D ∧ damageStage [] D = D ∧
    (C.towers = [] → C.damage_types = [] →
      apply_filters C D = (textStage C.query D).map (severityStage C.severity_range)) := by
  refine ⟨by simp [towerStage], rfl, ?_⟩
  intro ht hd
  unfold apply_filters
  rw [ht, hd]
  cases h1 : textStage C.query D with
  | error e => simp [Except.map]
  | ok d1 => simp [Except.map, towerStage, damageStage]

/-- C2 witness: the third conjunct applied at a concrete dataset and the
all-defaults criteria. -/
theorem claim_C2_empty_selections_witness :
    apply_filters { } { rows := [{}] } =
      (textStage "" { rows := [{}] }).map (severityStage none) :=
  (claim_C2_empty_selections { } { rows := [{}] }).2.2 rfl rfl

/-- C3 (confirmed): the severity predicate is active iff the severity
column exists and a range is supplied; active, it keeps exactly the rows
with a present score inside the inclusive bounds; a missing score fails
it; an inverted range keeps nothing; and through `apply_filters` (with
the other criteria inactive) it raises no error. -/
theorem claim_C3_severity_predicate (D : Dataset) (lo hi : ℚ) :
    severityStage none D = D ∧
    (D.hasSeverity = false → severityStage (some (lo, hi)) D = D) ∧
    (D.hasSeverity = true →
      ∀ r : Row, r ∈ (severityStage (some (lo, hi)) D).rows ↔
        r ∈ D.rows ∧ ∃ s : ℚ, r.severity_score = some s ∧ lo ≤ s ∧ s ≤ hi) ∧
    (D.hasSeverity = true → hi < lo → (severityStage (some (lo, hi)) D).rows = []) ∧
    (∀ sv : Option (ℚ × ℚ), apply_filters { severity_range := sv } D = .ok (severityStage sv D)) := by
  refine ⟨rfl, ?_, ?_, ?_, ?_⟩
  · intro h
    simp [severityStage, h]
  · intro h r
    simp only [severityStage, h, if_true, List.mem_filter]
    rw [rowSeverityMatch_iff]
  · intro h hlh
    simp only [severityStage, h, if_true]
    apply List.filter_eq_nil_iff.mpr
    intro r _ hc
    obtain ⟨s, _, h1, h2⟩ := rowSeverityMatch_iff.mp hc
    exact absurd (le_trans h1 h2) (not_le.mpr hlh)
  · intro sv
    simp [apply_filters, textStage, towerStage, damageStage]

/-- C3 witness: a dataset with a severity column; a row scoring 6 passes
the range [5, 7], a scoreless row fails it, and the inverted range
(8, 7) keeps nothing. -/
theorem claim_C3_severity_predicate_witness :
    ({ hasSeverity := true,
       rows := [{ severity_score := some 6 }, { severity_score := none }] } : Dataset).hasSeverity = true ∧
    ((7 : ℚ) < 8) ∧
    (severityStage (some (8, 7))
      { hasSeverity := true,
        rows := [{ severity_score := some 6 }, { severity_score := none }] }).rows = [] ∧
    (({ severity_score := some 6 } : Row) ∈ (severityStage (some (5, 7))
        { hasSeverity := true,
          rows := [{ severity_score := some 6 }, { severity_score := none }] }).rows ↔
      ({ severity_score := some 6 } : Row) ∈
        ({ hasSeverity := true,
           rows := [{ severity_score := some 6 }, { severity_score := none }] } : Dataset).rows ∧
        ∃ s : ℚ, (some (6 : ℚ)) = some s ∧ 5 ≤ s ∧ s ≤ 7) :=
  ⟨rfl, by decide,
    (claim_C3_severity_predicate _ 8 7).2.2.2.1 rfl (by decide),
    (claim_C3_severity_predicate _ 5 7).2.2.1 rfl _⟩

/-- C4 counterexample: the value `","` is neither missing nor the empty
string, yet its damage-type list is empty — refuting the claimed
equivalence "`damage_types` is empty iff `damages_found` is
empty/missing". -/
theorem claim_C4_counterexample :
    parseDamageList (some ",") = [] ∧ (some "," : Option String) ≠ none ∧
      ("," : String) ≠ "" := by decide

/-- C4 (amended): damage types are obtained by splitting on commas,
trimming each fragment and discarding empty fragments (the spec's worked
example holds verbatim); a missing or empty `damages_found`, and a
missing column, give the empty list; and `damage_types` is empty iff
every comma-separated fragment trims to nothing — of which empty/missing
is a special case, but not the only one. -/
theorem claim_C4_damage_parsing :
    parseDamageList none = [] ∧
    parseDamageList (some "") = [] ∧
    parseDamageList (some "Water leak,  Cracked wall ,") = ["Water leak", "Cracked wall"] ∧
    (∀ (D : Dataset) (r : Row), D.hasDamagesFound = false →
      r ∈ (computeDamageLists D).rows → r.damage_types = []) ∧
    (∀ (D : Dataset) (r : Row), D.hasDamagesFound = true →
      r ∈ (computeDamageLists D).rows → r.damage_types = parseDamageList r.damages_found) ∧
    (∀ s : String, parseDamageList (some s) = [] ↔
      ∀ f ∈ splitOnChar ',' s.data, stripCh f = []) := by
  refine ⟨by decide, by decide, by decide, ?_, ?_, ?_⟩
  · intro D r hD hr
    unfold computeDamageLists at hr
    obtain ⟨r0, _, rfl⟩ := List.mem_map.mp hr
    simp [hD]
  · intro D r hD hr
    unfold computeDamageLists at hr
    obtain ⟨r0, _, rfl⟩ := List.mem_map.mp hr
    simp [hD]
  · intro s
    unfold parseDamageList
    rw [List.filter_eq_nil_iff]
    constructor
    · intro h f hf
      have := h (String.mk (stripCh f)) (List.mem_map.mpr ⟨f, hf, rfl⟩)
      simpa [bne_iff_ne, String.ext_iff] using this
    · intro h d hd
      obtain ⟨f, hf, rfl⟩ := List.mem_map.mp hd
      simpa [bne_iff_ne, String.ext_iff] using h f hf

/-- C4 witness: the fragment-wise emptiness criterion applied at the
counterexample value, and the missing-column rule applied at a concrete
dataset. -/
theorem claim_C4_damage_parsing_witness :
    (({ hasDamagesFound := false, rows := [{ damages_found := some "Water leak" }] } :
        Dataset).hasDamagesFound = false) ∧
    (({ damages_found := some "Water leak" } : Row).damage_types = []) ∧
    (parseDamageList (some ",") = [] ↔
      ∀ f ∈ splitOnChar ',' (",").data, stripCh f = []) :=
  ⟨rfl,
    claim_C4_damage_parsing.2.2.2.1
      { hasDamagesFound := false, rows := [{ damages_found := some "Water leak" }] }
      { damages_found := some "Water leak" } rfl (by decide),
    claim_C4_damage_parsing.2.2.2.2.2 ","⟩

/-- C6 (confirmed): `apply_filters` is idempotent — re-running it with
the same criteria on its own successful output changes nothing (stated
both through `Except.bind` and on the successful value). -/
theorem claim_C6_idempotent (C : Criteria) (D : Dataset) :
    (apply_filters C D).bind (apply_filters C) = apply_filters C D ∧
    (∀ E, apply_filters C D = .ok E → apply_filters C E = .ok E) := by
  constructor
  · cases h : apply_filters C D with
    | error e => rfl
    | ok E =>
      show apply_filters C E = Except.ok E
      exact apply_filters_idem h
  · intro E h
    exact apply_filters_idem h

/-- C6 witness: idempotence observed on a concrete run that actually
filters a row out. -/
theorem claim_C6_idempotent_witness :
    (apply_filters { damage_types := ["Water leak"] }
        { hasDamagesFound := true,
          rows := [{ damages_found := some "Water leak", damage_types := ["Water leak"] },
                   { damages_found := some "Cracked wall", damage_types := ["Cracked wall"] }] } =
      .ok { hasDamagesFound := true,
            rows := [{ damages_found := some "Water leak", damage_types := ["Water leak"] }] }) ∧
    apply_filters { damage_types := ["Water leak"] }
        { hasDamagesFound := true,
          rows := [{ damages_found := some "Water leak", damage_types := ["Water leak"] }] } =
      .ok { hasDamagesFound := true,
            rows := [{ damages_found := some "Water leak", damage_types := ["Water leak"] }] } :=
  ⟨by decide,
    (claim_C6_idempotent { damage_types := ["Water leak"] }
      { hasDamagesFound := true,
        rows := [{ damages_found := some "Water leak", damage_types := ["Water leak"] },
                 { damages_found := some "Cracked wall", damage_types := ["Cracked wall"] }] }).2
      _ (by decide)⟩

/-- C7 (confirmed): a successful `apply_filters` run returns a dataset
whose row list is a subsequence of the input rows (original order, no
duplication, rows unchanged) and whose columns are exactly the input's
columns; the embedding is a pure function of its arguments, so the input
dataset itself is never mutated. -/
theorem claim_C7_pure_subsequence (C : Criteria) (D E : Dataset)
    (h : apply_filters C D = .ok E) :
    E.rows.Sublist D.rows ∧ E.hasRoomNo = D.hasRoomNo ∧ E.hasTower = D.hasTower ∧
      E.hasDamagesFound = D.hasDamagesFound ∧ E.hasSeverity = D.hasSeverity ∧
      E.hasImageURL = D.hasImageURL :=
  apply_filters_shape h

/-- C7 witness: the subsequence and column-preservation facts at a
concrete filtering run. -/
theorem claim_C7_pure_subsequence_witness :
    (apply_filters { damage_types := ["Cracked wall"] }
        { hasTower := true,
          rows := [{ tower := some "A", damage_types := ["Water leak"] },
                   { tower := some "B", damage_types := ["Cracked wall"] }] } =
      .ok { hasTower := true,
            rows := [{ tower := some "B", damage_types := ["Cracked wall"] }] }) ∧
    (({ hasTower := true,
        rows := [{ tower := some "B", damage_types := ["Cracked wall"] }] } : Dataset).rows.Sublist
        ({ hasTower := true,
           rows := [{ tower := some "A", damage_types := ["Water leak"] },
                    { tower := some "B", damage_types := ["Cracked wall"] }] } : Dataset).rows ∧
      ({ hasTower := true,
         rows := [{ tower := some "B", damage_types := ["Cracked wall"] }] } : Dataset).hasRoomNo =
        ({ hasTower := true,
           rows := [{ tower := some "A", damage_types := ["Water leak"] },
                    { tower := some "B", damage_types := ["Cracked wall"] }] } : Dataset).hasRoomNo ∧
      ({ hasTower := true,
         rows := [{ tower := some "B", damage_types := ["Cracked wall"] }] } : Dataset).hasTower =
        ({ hasTower := true,
           rows := [{ tower := some "A", damage_types := ["Water leak"] },
                    { tower := some "B", damage_types := ["Cracked wall"] }] } : Dataset).hasTower ∧
      ({ hasTower := true,
         rows := [{ tower := some "B", damage_types := ["Cracked wall"] }] } : Dataset).hasDamagesFound =
        ({ hasTower := true,
           rows := [{ tower := some "A", damage_types := ["Water leak"] },
                    { tower := some "B", damage_types := ["Cracked wall"] }] } : Dataset).hasDamagesFound ∧
      ({ hasTower := true,
         rows := [{ tower := some "B", damage_types := ["Cracked wall"] }] } : Dataset).hasSeverity =
        ({ hasTower := true,
           rows := [{ tower := some "A", damage_types := ["Water leak"] },
                    { tower := some "B", damage_types := ["Cracked wall"] }] } : Dataset).hasSeverity ∧
      ({ hasTower := true,
         rows := [{ tower := some "B", damage_types := ["Cracked wall"] }] } : Dataset).hasImageURL =
        ({ hasTower := true,
           rows := [{ tower := some "A", damage_types := ["Water leak"] },
                    { tower := some "B", damage_types := ["Cracked wall"] }] } : Dataset).hasImageURL) :=
  ⟨by decide,
    claim_C7_pure_subsequence { damage_types := ["Cracked wall"] }
      { hasTower := true,
        rows := [{ tower := some "A", damage_types := ["Water leak"] },
                 { tower := some "B", damage_types := ["Cracked wall"] }] }
      { hasTower := true,
        rows := [{ tower := some "B", damage_types := ["Cracked wall"] }] }
      (by decide)⟩

/-- C8 (confirmed): `load_data` tries the parquet candidate first and
the csv candidate second, returns the first table a present file parses
to, returns the empty dataset without error when no candidate exists,
and propagates a parse failure of a present file. -/
theorem claim_C8_load_data (fs : String → FileContent) (d : Dataset) :
    (fs "data/damage_data.parquet" = .table d → load_data fs = .ok d) ∧
    (fs "data/damage_data.parquet" = .absent → fs "data/damage_data.csv" = .table d →
      load_data fs = .ok d) ∧
    (fs "data/damage_data.parquet" = .absent → fs "data/damage_data.csv" = .absent →
      load_data fs = .ok { rows := [] }) ∧
    (fs "data/damage_data.parquet" = .malformed → load_data fs = .error ()) ∧
    (fs "data/damage_data.parquet" = .absent → fs "data/damage_data.csv" = .malformed →
      load_data fs = .error ()) := by
  refine ⟨?_, ?_, ?_, ?_, ?_⟩
  · intro h1
    simp [load_data, tryPaths, h1]
  · intro h1 h2
    simp [load_data, tryPaths, h1, h2]
  · intro h1 h2
    simp [load_data, tryPaths, h1, h2]
  · intro h1
    simp [load_data, tryPaths, h1]
  · intro h1 h2
    simp [load_data, tryPaths, h1, h2]

/-- C8 witness: a file system with no parquet file and a parsable csv
file yields the csv table. -/
theorem claim_C8_load_data_witness :
    ((fun p => if p = "data/damage_data.csv" then
        FileContent.table { rows := [{}] } else FileContent.absent)
      "data/damage_data.parquet" = FileContent.absent) ∧
    ((fun p => if p = "data/damage_data.csv" then
        FileContent.table { rows := [{}] } else FileContent.absent)
      "data/damage_data.csv" = FileContent.table { rows := [{}] }) ∧
    load_data (fun p => if p = "data/damage_data.csv" then
        FileContent.table { rows := [{}] } else FileContent.absent) = .ok { rows := [{}] } :=
  ⟨by decide, by decide,
    (claim_C8_load_data _ { rows := [{}] }).2.1 (by decide) (by decide)⟩

/-- C9 (code bug): contrary to the never-raises contract, when every
column feeding an active predicate's mask is absent and the frame is
non-empty, indexing with the resulting empty (hence unalignable) boolean
mask raises: a non-empty `towers` selection with no Tower column, or a
non-empty query with neither the Room No nor the Damages Found column.
With at least one referenced column present the degradation is graceful,
as the third conjunct shows. -/
theorem claim_C9_missing_column_raises :
    apply_filters { towers := ["Tower 1"] } { rows := [{}] } = .error .unalignableMask ∧
    apply_filters { query := "leak" } { rows := [{}] } = .error .unalignableMask ∧
    (apply_filters { query := "leak" }
        { hasRoomNo := true, rows := [{ room_no := some "leaky" }] }).map
      (fun d => d.rows.length) = .ok 1 := by decide

/-- C10 (confirmed): the damage-type predicate keeps a row iff some
label of the non-empty criteria set occurs verbatim — exact,
case-sensitive string equality — in the row's damage-type list, and with
only this filter active `apply_filters` returns exactly its result. -/
theorem claim_C10_damage_exact_match (D : Dataset) (dts : List String) (hne : dts ≠ []) :
    (∀ r : Row, r ∈ (damageStage dts D).rows ↔
      r ∈ D.rows ∧ ∃ d ∈ dts, d ∈ r.damage_types) ∧
    apply_filters { damage_types := dts } D = .ok (damageStage dts D) := by
  constructor
  · intro r
    simp only [damageStage, hne, if_false, List.mem_filter]
    rw [rowDamageMatch_iff]
  · simp [apply_filters, textStage, towerStage, severityStage]

/-- C10 witness: case-sensitivity in action — the label "Water leak"
does not match a row whose list holds only "water leak", while the
characterization confirms membership is exact equality. -/
theorem claim_C10_damage_exact_match_witness :
    ((["Water leak"] : List String) ≠ []) ∧
    (damageStage ["Water leak"] { rows := [{ damage_types := ["water leak"] }] }).rows = [] ∧
    (({ damage_types := ["water leak"] } : Row) ∈ (damageStage ["Water leak"]
        { rows := [{ damage_types := ["water leak"] }] }).rows ↔
      ({ damage_types := ["water leak"] } : Row) ∈
        ({ rows := [{ damage_types := ["water leak"] }] } : Dataset).rows ∧
        ∃ d ∈ (["Water leak"] : List String),
          d ∈ ({ damage_types := ["water leak"] } : Row).damage_types) :=
  ⟨by decide, by decide,
    (claim_C10_damage_exact_match { rows := [{ damage_types := ["water leak"] }] }
      ["Water leak"] (by decide)).1 _⟩

/-- C1 counterexample: the text filter is not substring containment.
With the query `"a.c"`, the sole row (room number `"abc"`) is kept by
`apply_filters` — the pandas `str.contains` default interprets the query
as a regular expression, whose `.` matches `b` — yet neither `"abc"` nor
the empty string contains `"a.c"` as a case-insensitive substring, so the
claimed keep-iff-substring equivalence fails at this input. -/
theorem claim_C1_counterexample :
    (apply_filters { query := "a.c" }
        { hasRoomNo := true, rows := [{ room_no := some "abc" }] }).map
      (fun d => d.rows.length) = .ok 1 ∧
    specContainsCI "abc" "a.c" = false ∧
    specContainsCI "" "a.c" = false := by decide

/-- C1 (amended): for a non-empty query whose pattern compiles, a row is
kept iff its room number or its damage text is matched by the query as a
case-insensitive regular-expression search (plain substring containment
only when the query has no metacharacters); a missing (`NaN`) value
never matches and causes no error; a query whose pattern does not
compile raises instead of matching; and an empty query deactivates the
predicate, excluding no row.  (When both text columns are absent from a
non-empty frame the mask is unalignable — the C9 bug — hence the
column-presence hypothesis.) -/
theorem claim_C1_text_predicate (D : Dataset) (q : String) (p : RE)
    (hq : q ≠ "") (hp : parsePattern q = some p)
    (hcols : D.hasRoomNo = true ∨ D.hasDamagesFound = true) :
    (∀ E, apply_filters { query := q } D = .ok E →
      ∀ r : Row, r ∈ E.rows ↔ r ∈ D.rows ∧
        ((D.hasRoomNo = true ∧ ∃ s, r.room_no = some s ∧ searchIn p s = true) ∨
         (D.hasDamagesFound = true ∧ ∃ s, r.damages_found = some s ∧ searchIn p s = true))) ∧
    (∃ E, apply_filters { query := q } D = .ok E) ∧
    (∀ q2 : String, q2 ≠ "" → parsePattern q2 = none →
      apply_filters { query := q2 } D = .error .badPattern) ∧
    apply_filters { query := "" } D = .ok D := by
  have hguard : (!D.hasRoomNo && !D.hasDamagesFound && !D.rows.isEmpty) = false := by
    cases hcols with
    | inl h => simp [h]
    | inr h => simp [h]
  have happ : apply_filters { query := q } D =
      .ok { D with rows := D.rows.filter (rowTextMatch p D.hasRoomNo D.hasDamagesFound) } := by
    simp [apply_filters, textStage, towerStage, damageStage, severityStage, hq, hp, hguard]
  refine ⟨?_, ⟨_, happ⟩, ?_, ?_⟩
  · intro E hE r
    rw [happ] at hE
    cases hE
    simp only [List.mem_filter]
    rw [rowTextMatch_iff]
  · intro q2 hq2 hn
    simp [apply_filters, textStage, hq2, hn]
  · simp [apply_filters, textStage, towerStage, damageStage, severityStage]

/-- C1 witness: the query `"leak"` (compiling to a chain of literals)
keeps the row whose damage text contains `"Water LEAK"` — matched
case-insensitively through the damages field. -/
theorem claim_C1_text_predicate_witness :
    (("leak" : String) ≠ "") ∧
    (parsePattern "leak" = some (RE.cat (RE.cat (RE.cat (RE.cat RE.eps (RE.lit 'l'))
      (RE.lit 'e')) (RE.lit 'a')) (RE.lit 'k'))) ∧
    (({ hasRoomNo := true, hasDamagesFound := true,
        rows := [{ room_no := some "1674/479", damages_found := some "Water LEAK" },
                 { room_no := some "999", damages_found := some "Cracked wall" }] } :
        Dataset).hasRoomNo = true ∨
      ({ hasRoomNo := true, hasDamagesFound := true,
         rows := [{ room_no := some "1674/479", damages_found := some "Water LEAK" },
                  { room_no := some "999", damages_found := some "Cracked wall" }] } :
        Dataset).hasDamagesFound = true) ∧
    (apply_filters { query := "leak" }
        { hasRoomNo := true, hasDamagesFound := true,
          rows := [{ room_no := some "1674/479", damages_found := some "Water LEAK" },
                   { room_no := some "999", damages_found := some "Cracked wall" }] } =
      .ok { hasRoomNo := true, hasDamagesFound := true,
            rows := [{ room_no := some "1674/479", damages_found := some "Water LEAK" }] }) ∧
    (({ room_no := some "1674/479", damages_found := some "Water LEAK" } : Row) ∈
        ({ hasRoomNo := true, hasDamagesFound := true,
           rows := [{ room_no := some "1674/479", damages_found := some "Water LEAK" }] } :
          Dataset).rows ↔
      ({ room_no := some "1674/479", damages_found := some "Water LEAK" } : Row) ∈
        ({ hasRoomNo := true, hasDamagesFound := true,
           rows := [{ room_no := some "1674/479", damages_found := some "Water LEAK" },
                    { room_no := some "999", damages_found := some "Cracked wall" }] } :
          Dataset).rows ∧
        ((({ hasRoomNo := true, hasDamagesFound := true,
             rows := [{ room_no := some "1674/479", damages_found := some "Water LEAK" },
                      { room_no := some "999", damages_found := some "Cracked wall" }] } :
            Dataset).hasRoomNo = true ∧
          ∃ s, ({ room_no := some "1674/479", damages_found := some "Water LEAK" } :
              Row).room_no = some s ∧
            searchIn (RE.cat (RE.cat (RE.cat (RE.cat RE.eps (RE.lit 'l')) (RE.lit 'e'))
              (RE.lit 'a')) (RE.lit 'k')) s = true) ∨
         (({ hasRoomNo := true, hasDamagesFound := true,
             rows := [{ room_no := some "1674/479", damages_found := some "Water LEAK" },
                      { room_no := some "999", damages_found := some "Cracked wall" }] } :
            Dataset).hasDamagesFound = true ∧
          ∃ s, ({ room_no := some "1674/479", damages_found := some "Water LEAK" } :
              Row).damages_found = some s ∧
            searchIn (RE.cat (RE.cat (RE.cat (RE.cat RE.eps (RE.lit 'l')) (RE.lit 'e'))
              (RE.lit 'a')) (RE.lit 'k')) s = true))) :=
  ⟨by decide, by decide, Or.inl rfl, by decide,
    (claim_C1_text_predicate
      { hasRoomNo := true, hasDamagesFound := true,
        rows := [{ room_no := some "1674/479", damages_found := some "Water LEAK" },
                 { room_no := some "999", damages_found := some "Cracked wall" }] }
      "leak"
      (RE.cat (RE.cat (RE.cat (RE.cat RE.eps (RE.lit 'l')) (RE.lit 'e')) (RE.lit 'a'))
        (RE.lit 'k'))
      (by decide) (by decide) (Or.inl rfl)).1
      { hasRoomNo := true, hasDamagesFound := true,
        rows := [{ room_no := some "1674/479", damages_found := some "Water LEAK" }] }
      (by decide)
      { room_no := some "1674/479", damages_found := some "Water LEAK" }⟩

/-- C5 (confirmed, against the spec-modelled aggregation):
`aggregate_damage_frequency` returns, from the exploded (row, label)
pairs, at most `top_n` entries (none for `top_n = 0`), sorted descending
by count; every returned count is the exact number of occurrences of its
label among the exploded pairs; every exploded label is counted; the
returned counts sum to at most the number of exploded pairs; and the
descending sort is stable, so labels with equal counts stay in
first-seen order. -/
theorem claim_C5_aggregate (rows : List Row) (top_n : Nat) (n : ℕ) :
    aggregate_damage_frequency rows 0 = [] ∧
    (aggregate_damage_frequency rows top_n).length ≤ top_n ∧
    List.Sorted byCountDesc (aggregate_damage_frequency rows top_n) ∧
    (∀ l k, (l, k) ∈ aggregate_damage_frequency rows top_n →
      k = (explodeLabels rows).count l) ∧
    (∀ l, l ∈ explodeLabels rows →
      (l, (explodeLabels rows).count l) ∈ sortDesc (countLabels (explodeLabels rows))) ∧
    ((aggregate_damage_frequency rows top_n).map (fun pr => pr.2)).sum ≤
      (explodeLabels rows).length ∧
    (sortDesc (countLabels (explodeLabels rows))).filter (fun qr => qr.2 == n) =
      (countLabels (explodeLabels rows)).filter (fun qr => qr.2 == n) := by
  refine ⟨rfl, List.length_take_le _ _, ?_, ?_, ?_, ?_, sortDesc_filter_count _ n⟩
  · exact List.Pairwise.sublist (List.take_sublist _ _) (sortDesc_sorted _)
  · intro l k hk
    have h1 : (l, k) ∈ sortDesc (countLabels (explodeLabels rows)) :=
      List.mem_of_mem_take hk
    exact countLabels_count ((sortDesc_perm _).mem_iff.mp h1)
  · intro l hl
    exact ((sortDesc_perm _).mem_iff).mpr (countLabels_complete hl)
  · calc ((aggregate_damage_frequency rows top_n).map (fun pr => pr.2)).sum
        ≤ ((sortDesc (countLabels (explodeLabels rows))).map (fun pr => pr.2)).sum :=
          sum_map_take_le _ _
    _ = ((countLabels (explodeLabels rows)).map (fun pr => pr.2)).sum := sortDesc_sum _
    _ = (explodeLabels rows).length := countLabels_sum _

/-- C5 witness: the spec's worked aggregation example — counts
{Water leak: 3, Cracked wall: 2, Loose tile: 1}, `top_n = 2` — returns
the top two in order, and the count-correctness conjunct instantiated at
("Water leak", 3). -/
theorem claim_C5_aggregate_witness :
    (("Water leak", 3) ∈ aggregate_damage_frequency
        [{ damage_types := ["Water leak", "Cracked wall"] },
         { damage_types := ["Water leak"] },
         { damage_types := ["Water leak", "Loose tile"] },
         { damage_types := ["Cracked wall"] }] 2) ∧
    (3 = (explodeLabels
        [{ damage_types := ["Water leak", "Cracked wall"] },
         { damage_types := ["Water leak"] },
         { damage_types := ["Water leak", "Loose tile"] },
         { damage_types := ["Cracked wall"] }]).count "Water leak") ∧
    aggregate_damage_frequency
        [{ damage_types := ["Water leak", "Cracked wall"] },
         { damage_types := ["Water leak"] },
         { damage_types := ["Water leak", "Loose tile"] },
         { damage_types := ["Cracked wall"] }] 2 =
      [("Water leak", 3), ("Cracked wall", 2)] :=
  ⟨by decide,
    (claim_C5_aggregate
      [{ damage_types := ["Water leak", "Cracked wall"] },
       { damage_types := ["Water leak"] },
       { damage_types := ["Water leak", "Loose tile"] },
       { damage_types := ["Cracked wall"] }] 2 3).2.2.2.1 "Water leak" 3 (by decide),
    by decide⟩

end CircleDashboard
